import Mathlib

/-!
Verification of the pointer-pinning guard of go-ceph.

This file gives a shallow embedding of the code in `src/rados/write_step.go`
(the `rados.writeStep` constructor and the `cutil.PtrGuard` pinning guard)
and of `src/rbd/rbd_luminous.go` (`Image.GetCreateTimestamp`), and proves
properties of that embedding.

Addresses are modelled as natural numbers (`uintptr`), with `0` as the nil
sentinel. Foreign (C) memory is a total map from addresses to stored values.
A Go `panic` is modelled as `Except.error`.
-/

/-- Foreign (C) memory: a total map from addresses to pointer-sized values. -/
abbrev Mem := Nat → Nat

/-- Write value `x` into memory `m` at address `a` (the effect of a Go
assignment through a C pointer). -/
def memWrite (m : Mem) (a x : Nat) : Mem := fun y => if y = a then x else m y

/-- The all-zero foreign memory, used for concrete runs. -/
def zeroMem : Mem := fun _ => 0

/-- `cutil.PtrGuard`, the data part: `ptr` is the pinned Go pointer as a
`uintptr` (`0` once released), `store` is the C address the pointer was
stored at (`nil` = `none` when no Store happened or after Release).  The two
mutexes of the Go struct are synchronization only; they are modelled
separately by the handshake system below. -/
structure PtrGuard where
  ptr : Nat
  store : Option Nat
deriving DecidableEq, Repr

/-- `cutil.NewPtrGuard`, data part: capture the address, no store bound yet.
(The mutex initialization and the spawned goroutine are modelled by the
handshake system `Sys` below.) -/
def NewPtrGuard (goPtr : Nat) : PtrGuard := { ptr := goPtr, store := none }

/-- `PtrGuard.Store`: if `v.ptr == 0` return the guard unchanged; if
`v.store != nil` panic with "double call of Poke()"; otherwise record `cPtr`
in `v.store` and write the pinned pointer into C memory at `cPtr`. -/
def PtrGuard.Store (v : PtrGuard) (cPtr : Nat) (m : Mem) :
    Except String (PtrGuard × Mem) :=
  if v.ptr = 0 then .ok (v, m)
  else if v.store.isSome then .error "double call of Poke()"
  else .ok ({ v with store := some cPtr }, memWrite m cPtr v.ptr)

/-- `PtrGuard.Release`, data part: if `v.ptr == 0` return immediately;
otherwise zero `v.ptr`, and if a store is bound, zero the C cell and clear
the binding.  (The subsequent `release.Unlock` / `pinned.Lock` pair touches
no data; it is modelled by `releaseTrace` and by the handshake system.) -/
def PtrGuard.Release (v : PtrGuard) (m : Mem) : PtrGuard × Mem :=
  if v.ptr = 0 then (v, m)
  else
    match v.store with
    | some s => ({ ptr := 0, store := none }, memWrite m s 0)
    | none => ({ ptr := 0, store := none }, m)

/-- A call the owning task can make on a guard: `st c` is `Store(c)`,
`rel` is `Release()`. -/
inductive GOp where
  | st (cPtr : Nat)
  | rel
deriving DecidableEq, Repr

/-- Apply one call to a guard-plus-memory state; a panic aborts the run. -/
def applyOp (s : PtrGuard × Mem) : GOp → Except String (PtrGuard × Mem)
  | .st c => s.1.Store c s.2
  | .rel => .ok (s.1.Release s.2)

/-- Run a sequence of calls, stopping at the first panic. -/
def runOps (s : PtrGuard × Mem) : List GOp → Except String (PtrGuard × Mem)
  | [] => .ok s
  | o :: os => (applyOp s o).bind fun t => runOps t os

/-!
Micro-step model of the body of `PtrGuard.Release`.  Each atomic statement
of the Go function body is one program point; running the body from a state
yields the list of executed effects, each paired with the state immediately
after it.  This makes the intermediate states of Release observable, which
the trace claims are about.
-/

/-- One atomic effect inside the body of `Release`:
`zeroLocal` is `v.ptr = 0`; `zeroForeign` is `*v.store = 0`;
`clearBinding` is `v.store = nil`; `fireTerminate` is `v.release.Unlock()`
(handshake 2); `waitUnwind` is `v.pinned.Lock()` (handshake 3). -/
inductive REvent where
  | zeroLocal
  | zeroForeign
  | clearBinding
  | fireTerminate
  | waitUnwind
deriving DecidableEq, Repr

/-- The state the body of `Release` acts on: the guard fields and the
foreign memory. -/
structure RState where
  g : PtrGuard
  mem : Mem

/-- Program points of the body of `Release`, one per atomic statement of
the Go source, in source order. -/
inductive RPc where
  | checkLive
  | doZeroLocal
  | checkSlot
  | doZeroForeign
  | doClearBinding
  | doFireTerminate
  | doWaitUnwind
  | done
deriving DecidableEq, Repr

/-- One atomic step of the body of `Release`: from a program point and a
state, the effect performed (if any) and the next point and state.
Transcribed statement by statement from the Go source:
`if v.ptr == 0 return; v.ptr = 0; if v.store != nil { *v.store = 0;
v.store = nil }; v.release.Unlock(); v.pinned.Lock()`. -/
def releaseStep : RPc × RState → Option (Option REvent × (RPc × RState))
  | (.checkLive, s) =>
      some (none, (if s.g.ptr = 0 then .done else .doZeroLocal, s))
  | (.doZeroLocal, s) =>
      some (some .zeroLocal, (.checkSlot, { s with g := { s.g with ptr := 0 } }))
  | (.checkSlot, s) =>
      some (none, (if s.g.store.isSome then .doZeroForeign else .doFireTerminate, s))
  | (.doZeroForeign, s) =>
      match s.g.store with
      | some sl => some (some .zeroForeign, (.doClearBinding, { s with mem := memWrite s.mem sl 0 }))
      | none => some (some .zeroForeign, (.doClearBinding, s))
  | (.doClearBinding, s) =>
      some (some .clearBinding, (.doFireTerminate, { s with g := { s.g with store := none } }))
  | (.doFireTerminate, s) =>
      some (some .fireTerminate, (.doWaitUnwind, s))
  | (.doWaitUnwind, s) =>
      some (some .waitUnwind, (.done, s))
  | (.done, _) => none

/-- Run the `Release` body for at most `n` atomic steps from a program
point, collecting each effect with the state right after it. -/
def runFrom : Nat → RPc × RState → List (REvent × RState)
  | 0, _ => []
  | n + 1, c =>
    match releaseStep c with
    | none => []
    | some (ev, c2) =>
      (match ev with
       | some e => [(e, c2.2)]
       | none => []) ++ runFrom n c2

/-- The full effect trace of one `Release()` call from state `s`: the body
has at most 7 atomic statements, so fuel 8 runs it to completion. -/
def releaseTrace (s : RState) : List (REvent × RState) :=
  runFrom 8 (.checkLive, s)

/-!
Handshake model.  `NewPtrGuard` locks both mutexes, spawns a goroutine
running `pinUntilRelease(&v, goPtr)` followed by `v.pinned.Unlock()`, and
then blocks on `v.pinned.Lock()`.  `pinUntilRelease` does
`v.pinned.Unlock(); v.release.Lock()`; by the go:uintptrescapes directive
the object behind `goPtr` is retained by the runtime exactly for the
duration of the `pinUntilRelease` call.  `Release` (live path) ends with
`v.release.Unlock(); v.pinned.Lock()`.  The two tasks interleave; a Lock on
a locked mutex blocks, an Unlock makes it available.  Program points record
the next synchronization statement each task will execute.
-/

/-- Program points of the owning task, at its synchronization statements:
`inCtor` = inside `NewPtrGuard`, about to `pinned.Lock()` (handshake 1
wait); `active` = constructor returned, `Release` not yet signalled;
`inRelease` = `Release` executed `release.Unlock()` (handshake 2), about to
`pinned.Lock()` (handshake 3 wait); `released` = `Release` returned. -/
inductive MainPc where
  | inCtor
  | active
  | inRelease
  | released
deriving DecidableEq, Repr

/-- Program points of the background pinning goroutine:
`beforeEstablish` = inside `pinUntilRelease`, about to `pinned.Unlock()`
(handshake 1); `awaitTerminate` = inside `pinUntilRelease`, about to
`release.Lock()` (handshake 2 wait); `beforeConfirm` = `pinUntilRelease`
returned (pin dropped), about to `pinned.Unlock()` (handshake 3);
`exited` = goroutine finished. -/
inductive PinPc where
  | beforeEstablish
  | awaitTerminate
  | beforeConfirm
  | exited
deriving DecidableEq, Repr

/-- Joint state of the two tasks of one guard and of its two mutexes.
`true` = locked. -/
structure Sys where
  main : MainPc
  pin : PinPc
  pinnedLocked : Bool
  releaseLocked : Bool
deriving DecidableEq, Repr

/-- The state right after `NewPtrGuard` locked both mutexes and spawned the
goroutine: both tasks at their first synchronization statement, both
mutexes locked. -/
def initSys : Sys :=
  { main := .inCtor, pin := .beforeEstablish, pinnedLocked := true, releaseLocked := true }

/-- All states reachable from `s` in one atomic step of either task.
A `Lock()` fires only when the mutex is unlocked and locks it; an
`Unlock()` unlocks it. -/
def sysSuccs (s : Sys) : List Sys :=
  (if s.main = .inCtor ∧ s.pinnedLocked = false then
    [{ s with main := .active, pinnedLocked := true }] else []) ++
  (if s.main = .active then
    [{ s with main := .inRelease, releaseLocked := false }] else []) ++
  (if s.main = .inRelease ∧ s.pinnedLocked = false then
    [{ s with main := .released, pinnedLocked := true }] else []) ++
  (if s.pin = .beforeEstablish then
    [{ s with pin := .awaitTerminate, pinnedLocked := false }] else []) ++
  (if s.pin = .awaitTerminate ∧ s.releaseLocked = false then
    [{ s with pin := .beforeConfirm, releaseLocked := true }] else []) ++
  (if s.pin = .beforeConfirm then
    [{ s with pin := .exited, pinnedLocked := false }] else [])

/-- Reachability of a joint state from the spawn point, by interleaving. -/
inductive SysReach : Sys → Prop where
  | init : SysReach initSys
  | step {s t : Sys} : SysReach s → t ∈ sysSuccs s → SysReach t

/-- The complete list of joint states reachable from `initSys` (the
handshake admits exactly one interleaving). -/
def reachSet : List Sys :=
  [{ main := .inCtor, pin := .beforeEstablish, pinnedLocked := true, releaseLocked := true },
   { main := .inCtor, pin := .awaitTerminate, pinnedLocked := false, releaseLocked := true },
   { main := .active, pin := .awaitTerminate, pinnedLocked := true, releaseLocked := true },
   { main := .inRelease, pin := .awaitTerminate, pinnedLocked := true, releaseLocked := false },
   { main := .inRelease, pin := .beforeConfirm, pinnedLocked := true, releaseLocked := true },
   { main := .inRelease, pin := .exited, pinnedLocked := false, releaseLocked := true },
   { main := .released, pin := .exited, pinnedLocked := true, releaseLocked := true }]

/-- The runtime pin is in effect exactly while the goroutine is inside the
`pinUntilRelease` call (go:uintptrescapes retains the object for the
duration of that call). -/
def pinHeld (s : Sys) : Prop :=
  s.pin = .beforeEstablish ∨ s.pin = .awaitTerminate

/-- `reachSet` is closed under the step relation. -/
theorem reachSet_closed : ∀ s ∈ reachSet, ∀ t ∈ sysSuccs s, t ∈ reachSet := by
  decide

/-- Every reachable joint state is in `reachSet`. -/
theorem sysReach_mem_reachSet {s : Sys} (h : SysReach s) : s ∈ reachSet := by
  induction h with
  | init => decide
  | step _ ht ih => exact reachSet_closed _ ih _ ht

/-!
`rados.newWriteStep` (src/rados/write_step.go).  A Go byte slice is a
`List Nat` together with the address `bufAddr` of its first element (Lean
lists have no addresses, so the address is an explicit parameter).  Taking
`&b[0]` of an empty slice is an index-out-of-range panic, modelled as
`Except.error`.  `C.size_t` and `C.uint64_t` are 64-bit on the platforms
the package supports (the source asserts pointer width at compile time),
so the conversions of the nonnegative `len(b)`, `writeLen` and `offset`
are the identity on their `Nat` models.  The embedded `withoutUpdate`
marker struct carries no data and is omitted.
-/

/-- `rados.writeStep`: the retained slice, its pin guard, and the C call
arguments. -/
structure writeStep where
  b : List Nat
  pg : PtrGuard
  cBuffer : Nat
  cDataLen : Nat
  cWriteLen : Nat
  cOffset : Nat
deriving DecidableEq, Repr

/-- `rados.newWriteStep`: take `&b[0]` (panicking on an empty slice), pin
it, and fill in the C arguments. -/
def newWriteStep (bufAddr : Nat) (b : List Nat) (writeLen offset : Nat) :
    Except String writeStep :=
  match b with
  | [] => .error "index out of range"
  | _ :: _ =>
    .ok { b := b
          pg := NewPtrGuard bufAddr
          cBuffer := bufAddr
          cDataLen := b.length
          cWriteLen := writeLen
          cOffset := offset }

/-- `writeStep.free`: release the pin guard. -/
def writeStep.free (v : writeStep) (m : Mem) : PtrGuard × Mem :=
  v.pg.Release m

/-!
`rbd.Image.GetCreateTimestamp` (src/rbd/rbd_luminous.go).  The helpers it
calls live outside src/: `image.validate(imageIsOpen)` checks that the
image handle is open, `getError` turns a negative C return code into a
non-nil Go error, and `ts.CStructToTimespec` converts a C `struct
timespec`.  They are modelled from the spec as stated on each definition.
The C call `rbd_get_create_timestamp` itself is a foreign function; its
outcome (return code and filled struct) is passed in as parameters.
-/

/-- A C `struct timespec`: seconds and nanoseconds. -/
structure CTimespec where
  sec : Int
  nsec : Int
deriving DecidableEq, Repr

/-- `rbd.Timespec`: the Go-side timestamp type; its zero value is
`Timespec{}`. -/
structure Timespec where
  sec : Int
  nsec : Int
deriving DecidableEq, Repr

/-- A non-nil Go error as returned by this method: either the open-state
validation failure or a wrapped negative C return code. -/
inductive RbdError where
  | errImageNotOpen
  | radosErr (code : Int)
deriving DecidableEq, Repr

/-- Modelled from the spec: `ts.CStructToTimespec` (internal/timespec, not
under src/) converts the C `struct timespec` to the Go `Timespec`
field-for-field. -/
def cStructToTimespec (cts : CTimespec) : Timespec :=
  { sec := cts.sec, nsec := cts.nsec }

/-- Modelled from the spec: `getError` (rbd error helper, not under src/)
wraps a negative C return code in a non-nil Go error. -/
def getError (ret : Int) : RbdError :=
  .radosErr ret

/-- `rbd.Image`, the part this method reads: the C image handle, `none`
when the image is not open. -/
structure Image where
  image : Option Nat
deriving DecidableEq, Repr

/-- Modelled from the spec: `image.validate(imageIsOpen)` (not under src/)
returns a non-nil error exactly when the image handle is not open. -/
def Image.validate (image : Image) : Option RbdError :=
  match image.image with
  | none => some .errImageNotOpen
  | some _ => none

/-- `Image.GetCreateTimestamp`: validate the open state, make the C call
(outcome `ret`, `cts` passed in), and either propagate an error with the
zero `Timespec` or convert the C struct.  A `none` second component is a
nil Go error. -/
def Image.GetCreateTimestamp (image : Image) (ret : Int) (cts : CTimespec) :
    Timespec × Option RbdError :=
  match image.validate with
  | some e => ({ sec := 0, nsec := 0 }, some e)
  | none =>
    if ret < 0 then ({ sec := 0, nsec := 0 }, some (getError ret))
    else (cStructToTimespec cts, none)

/-!
Helper lemmas about the guard invariant (shared by several claims).
-/

/-- The guard invariant: a released guard (zero pinned address) holds no
foreign-slot binding. -/
def guardInv (v : PtrGuard) : Prop := v.ptr = 0 → v.store = none

/-- One successful call preserves the guard invariant. -/
theorem applyOp_guardInv {s t : PtrGuard × Mem} {o : GOp}
    (h : guardInv s.1) (ho : applyOp s o = .ok t) : guardInv t.1 := by
  cases o with
  | st c =>
    by_cases hp : s.1.ptr = 0
    · simp [applyOp, PtrGuard.Store, hp] at ho
      subst ho
      exact h
    · rcases hs : s.1.store with _ | w
      · simp [applyOp, PtrGuard.Store, hp, hs] at ho
        intro hzero
        rw [← ho] at hzero
        exact absurd hzero hp
      · simp [applyOp, PtrGuard.Store, hp, hs] at ho
  | rel =>
    by_cases hp : s.1.ptr = 0
    · simp [applyOp, PtrGuard.Release, hp] at ho
      subst ho
      exact h
    · rcases hs : s.1.store with _ | w <;>
        simp [applyOp, PtrGuard.Release, hp, hs] at ho <;>
        · rw [← ho]
          intro _
          rfl

/-- A successful run of calls preserves the guard invariant. -/
theorem runOps_guardInv :
    ∀ (ops : List GOp) (s t : PtrGuard × Mem),
      guardInv s.1 → runOps s ops = .ok t → guardInv t.1 := by
  intro ops
  induction ops with
  | nil =>
    intro s t h ho
    simp [runOps] at ho
    subst ho
    exact h
  | cons o os ih =>
    intro s t h ho
    rcases ha : applyOp s o with e | u
    · simp [runOps, ha, Except.bind] at ho
    · simp [runOps, ha, Except.bind] at ho
      exact ih u t (applyOp_guardInv h ha) ho

/-- C1: for every guard constructed over a nonzero address `A`, the
sequence construct, then `Store(slot)`, then `Release` leaves the foreign
cell `slot` holding exactly `A` immediately after `Store` returns, and
holding exactly `0` immediately after `Release` returns. -/
theorem c1_construct_store_release (A slot : Nat) (m : Mem) (hA : A ≠ 0) :
    (NewPtrGuard A).Store slot m = .ok (⟨A, some slot⟩, memWrite m slot A) ∧
    memWrite m slot A slot = A ∧
    (PtrGuard.Release ⟨A, some slot⟩ (memWrite m slot A)).2 slot = 0 := by
  refine ⟨?_, ?_, ?_⟩
  · simp [NewPtrGuard, PtrGuard.Store, hA]
  · simp [memWrite]
  · simp [PtrGuard.Release, hA, memWrite]

/-- Witness for C1 at the concrete address 1, cell 10 and all-zero C
memory. -/
theorem c1_construct_store_release_witness :
    (NewPtrGuard 1).Store 10 zeroMem = .ok (⟨1, some 10⟩, memWrite zeroMem 10 1) ∧
    memWrite zeroMem 10 1 10 = 1 ∧
    (PtrGuard.Release ⟨1, some 10⟩ (memWrite zeroMem 10 1)).2 10 = 0 :=
  c1_construct_store_release 1 10 zeroMem (by decide)

/-- C2: Release is idempotent.  For every guard on which Release has
completed, a second Release returns the guard and the C memory unchanged,
and its effect trace is empty: it performs no write and reaches no
blocking statement (`waitUnwind` in particular). -/
theorem c2_release_idempotent (v : PtrGuard) (m : Mem) :
    (v.Release m).1.Release (v.Release m).2 = v.Release m ∧
    releaseTrace ⟨(v.Release m).1, (v.Release m).2⟩ = [] := by
  by_cases h : v.ptr = 0
  · cases hst : v.store <;>
      simp [PtrGuard.Release, releaseTrace, runFrom, releaseStep, h, hst]
  · cases hst : v.store <;>
      simp [PtrGuard.Release, releaseTrace, runFrom, releaseStep, h, hst]

/-- C3 counterexample: the run Store(10), Release, Store(20) from a guard
over address 1 completes without a panic — the second Store call after a
Release does not abort, contrary to the claim that a second Store panics
in both orders relative to Release. -/
theorem c3_store_release_store_no_panic :
    (runOps (NewPtrGuard 1, zeroMem) [.st 10, .rel, .st 20]).isOk = true := by
  rfl

/-- C3 amended: a second Store on a guard that is still live (not yet
released) panics with "double call of Poke()"; once Release has happened,
any further Store is an inert no-op and does not panic. -/
theorem c3_second_store_panics_only_live (v : PtrGuard) (c1 c2 c3 : Nat)
    (m m2 : Mem) (hv : v.ptr ≠ 0) (hs : v.store = none) :
    v.Store c1 m = .ok (⟨v.ptr, some c1⟩, memWrite m c1 v.ptr) ∧
    PtrGuard.Store ⟨v.ptr, some c1⟩ c2 (memWrite m c1 v.ptr) =
      .error "double call of Poke()" ∧
    (PtrGuard.Release ⟨v.ptr, some c1⟩ (memWrite m c1 v.ptr)).1.Store c3 m2 =
      .ok ((PtrGuard.Release ⟨v.ptr, some c1⟩ (memWrite m c1 v.ptr)).1, m2) := by
  refine ⟨?_, ?_, ?_⟩
  · simp [PtrGuard.Store, hv, hs]
  · simp [PtrGuard.Store, hv]
  · simp [PtrGuard.Release, PtrGuard.Store, hv]

/-- Witness for the amended C3 at a guard over address 1, cells 10, 20,
30 and all-zero C memory. -/
theorem c3_second_store_panics_only_live_witness :
    PtrGuard.Store ⟨1, none⟩ 10 zeroMem =
      .ok (⟨1, some 10⟩, memWrite zeroMem 10 1) ∧
    PtrGuard.Store ⟨1, some 10⟩ 20 (memWrite zeroMem 10 1) =
      .error "double call of Poke()" ∧
    (PtrGuard.Release ⟨1, some 10⟩ (memWrite zeroMem 10 1)).1.Store 30 zeroMem =
      .ok ((PtrGuard.Release ⟨1, some 10⟩ (memWrite zeroMem 10 1)).1, zeroMem) :=
  c3_second_store_panics_only_live ⟨1, none⟩ 10 20 30 zeroMem zeroMem
    (by decide) rfl

/-- C6: on a guard that has already been released (pinned address zero),
Store performs no write to the given cell, changes no field of the guard,
and returns without error or abort. -/
theorem c6_store_on_released_inert (v : PtrGuard) (c : Nat) (m : Mem)
    (h : v.ptr = 0) :
    v.Store c m = .ok (v, m) := by
  simp [PtrGuard.Store, h]

/-- Witness for C6 at the fully released guard and all-zero C memory. -/
theorem c6_store_on_released_inert_witness :
    PtrGuard.Store ⟨0, none⟩ 5 zeroMem = .ok (⟨0, none⟩, zeroMem) :=
  c6_store_on_released_inert ⟨0, none⟩ 5 zeroMem rfl

/-- C8: every guard constructed over a nonzero pointer satisfies, after
construction and after every successful sequence of Store and Release
calls, the invariant that a zero pinned address implies a nil foreign-slot
binding. -/
theorem c8_released_guard_no_binding (A : Nat) (m : Mem) (ops : List GOp)
    (s : PtrGuard × Mem) (_hA : A ≠ 0)
    (h : runOps (NewPtrGuard A, m) ops = .ok s) :
    s.1.ptr = 0 → s.1.store = none :=
  runOps_guardInv ops (NewPtrGuard A, m) s (fun _ => rfl) h

/-- Witness for C8 at address 1 and the single-call run Release. -/
theorem c8_released_guard_no_binding_witness :
    ((⟨0, none⟩ : PtrGuard), zeroMem).1.store = none :=
  c8_released_guard_no_binding 1 zeroMem [.rel] (⟨0, none⟩, zeroMem)
    (by decide) rfl rfl

/-- C5: on a live guard, Release performs its atomic steps in exactly the
source order: zero the local pinned address; if a foreign slot is bound,
zero the foreign cell and clear the binding; fire the terminate gate
(handshake 2); block on the unwind confirmation (handshake 3). -/
theorem c5_release_step_order (s : RState) (h : s.g.ptr ≠ 0) :
    (releaseTrace s).map Prod.fst =
      [.zeroLocal] ++
      (if s.g.store.isSome then [.zeroForeign, .clearBinding] else []) ++
      [.fireTerminate, .waitUnwind] := by
  obtain ⟨⟨p, st⟩, m⟩ := s
  cases p with
  | zero => exact absurd rfl h
  | succ n => cases st <;> rfl

/-- Witness for C5 at a live guard over address 1 with cell 10 bound. -/
theorem c5_release_step_order_witness :
    (releaseTrace ⟨⟨1, some 10⟩, zeroMem⟩).map Prod.fst =
      [.zeroLocal, .zeroForeign, .clearBinding, .fireTerminate, .waitUnwind] :=
  c5_release_step_order ⟨⟨1, some 10⟩, zeroMem⟩ (by decide)

/-- C4 counterexample: from the state reached by construct over address 1
followed by Store(10), the Release body has a step (right after it zeroes
the local pinned address) at which the local address is already zero while
the foreign cell 10 still holds the pinned address 1 — the foreign cell is
zeroed strictly later than the local address, not "no later". -/
theorem c4_local_zero_foreign_nonzero_step :
    (NewPtrGuard 1).Store 10 zeroMem =
      .ok (⟨1, some 10⟩, memWrite zeroMem 10 1) ∧
    ((.zeroLocal, ⟨⟨0, some 10⟩, memWrite zeroMem 10 1⟩) : REvent × RState) ∈
      releaseTrace ⟨⟨1, some 10⟩, memWrite zeroMem 10 1⟩ ∧
    ((⟨⟨0, some 10⟩, memWrite zeroMem 10 1⟩ : RState).g.ptr = 0 ∧
     (⟨⟨0, some 10⟩, memWrite zeroMem 10 1⟩ : RState).mem 10 = 1) := by
  refine ⟨rfl, ?_, rfl, ?_⟩
  · exact List.Mem.head _
  · simp [memWrite]

/-- C4 amended: on a live guard with a bound foreign slot, Release zeroes
the foreign cell one step after it zeroes the local pinned address and
strictly before it fires the terminate gate; from the foreign-zeroing step
on (in particular when Release returns) the foreign cell is zero. -/
theorem c4_foreign_zeroed_before_terminate (s : RState) (sl : Nat)
    (h : s.g.ptr ≠ 0) (hst : s.g.store = some sl) :
    (releaseTrace s).map Prod.fst =
      [.zeroLocal, .zeroForeign, .clearBinding, .fireTerminate, .waitUnwind] ∧
    ∀ p ∈ releaseTrace s, p.1 ≠ .zeroLocal → p.2.mem sl = 0 := by
  obtain ⟨⟨p, st⟩, m⟩ := s
  cases p with
  | zero => exact absurd rfl h
  | succ n =>
    simp only at hst
    subst hst
    refine ⟨rfl, ?_⟩
    intro q hq hne
    have htr : releaseTrace ⟨⟨Nat.succ n, some sl⟩, m⟩ =
        [(.zeroLocal, ⟨⟨0, some sl⟩, m⟩),
         (.zeroForeign, ⟨⟨0, some sl⟩, memWrite m sl 0⟩),
         (.clearBinding, ⟨⟨0, none⟩, memWrite m sl 0⟩),
         (.fireTerminate, ⟨⟨0, none⟩, memWrite m sl 0⟩),
         (.waitUnwind, ⟨⟨0, none⟩, memWrite m sl 0⟩)] := rfl
    rw [htr] at hq
    simp only [List.mem_cons, List.not_mem_nil, or_false] at hq
    rcases hq with rfl | rfl | rfl | rfl | rfl
    · exact absurd rfl hne
    all_goals simp [memWrite]

/-- Witness for the amended C4 at a live guard over address 1 with cell 10
bound and holding 1: the step order, and the zero cell at the terminate
step. -/
theorem c4_foreign_zeroed_before_terminate_witness :
    (releaseTrace ⟨⟨1, some 10⟩, memWrite zeroMem 10 1⟩).map Prod.fst =
      [.zeroLocal, .zeroForeign, .clearBinding, .fireTerminate, .waitUnwind] ∧
    ((.fireTerminate,
        ⟨⟨0, none⟩, memWrite (memWrite zeroMem 10 1) 10 0⟩) :
      REvent × RState).2.mem 10 = 0 :=
  ⟨(c4_foreign_zeroed_before_terminate ⟨⟨1, some 10⟩, memWrite zeroMem 10 1⟩
      10 (by decide) rfl).1,
   (c4_foreign_zeroed_before_terminate ⟨⟨1, some 10⟩, memWrite zeroMem 10 1⟩
      10 (by decide) rfl).2
      (.fireTerminate, ⟨⟨0, none⟩, memWrite (memWrite zeroMem 10 1) 10 0⟩)
      (List.Mem.tail _ (List.Mem.tail _ (List.Mem.tail _ (List.Mem.head _))))
      (by decide)⟩

instance (s : Sys) : Decidable (pinHeld s) :=
  inferInstanceAs (Decidable (_ ∨ _))

/-- C7: in every reachable joint state of the two tasks, the constructor
has returned only after the pinning goroutine fired handshake 1; while the
guard is active (constructed, Release not yet signalled) the goroutine is
inside `pinUntilRelease`, so the runtime pin is in effect; and once Release
has returned, the goroutine has exited. -/
theorem c7_handshake_protocol (s : Sys) (h : SysReach s) :
    (s.main ≠ .inCtor → s.pin ≠ .beforeEstablish) ∧
    (s.main = .active → pinHeld s) ∧
    (s.main = .released → s.pin = .exited) := by
  have hm := sysReach_mem_reachSet h
  simp only [reachSet, List.mem_cons, List.not_mem_nil, or_false] at hm
  rcases hm with rfl | rfl | rfl | rfl | rfl | rfl | rfl <;>
    exact ⟨by simp [pinHeld], by simp [pinHeld], by simp⟩

/-- Witness for C7 along the unique interleaving: in the constructed state
handshake 1 has fired and the pin is held, and in the post-Release state
the goroutine has exited. -/
theorem c7_handshake_protocol_witness :
    (⟨.active, .awaitTerminate, true, true⟩ : Sys).pin ≠ .beforeEstablish ∧
    pinHeld ⟨.active, .awaitTerminate, true, true⟩ ∧
    (⟨.released, .exited, true, true⟩ : Sys).pin = .exited := by
  have r1 : SysReach ⟨.inCtor, .awaitTerminate, false, true⟩ :=
    SysReach.init.step (by decide)
  have r2 : SysReach ⟨.active, .awaitTerminate, true, true⟩ :=
    r1.step (by decide)
  have r3 : SysReach ⟨.inRelease, .awaitTerminate, true, false⟩ :=
    r2.step (by decide)
  have r4 : SysReach ⟨.inRelease, .beforeConfirm, true, true⟩ :=
    r3.step (by decide)
  have r5 : SysReach ⟨.inRelease, .exited, false, true⟩ :=
    r4.step (by decide)
  have r6 : SysReach ⟨.released, .exited, true, true⟩ :=
    r5.step (by decide)
  exact ⟨(c7_handshake_protocol _ r2).1 (by decide),
         (c7_handshake_protocol _ r2).2.1 rfl,
         (c7_handshake_protocol _ r6).2.2 rfl⟩

/-- C9: `newWriteStep` reads element 0 of its byte slice unconditionally,
so it panics exactly on the empty slice; on a non-empty slice it succeeds
and sets `cDataLen` to the slice length, `cWriteLen` to the given
`writeLen` and `cOffset` to the given `offset`. -/
theorem c9_newWriteStep_spec (bufAddr : Nat) (b : List Nat)
    (writeLen offset : Nat) :
    (b = [] → newWriteStep bufAddr b writeLen offset =
      .error "index out of range") ∧
    (b ≠ [] → newWriteStep bufAddr b writeLen offset =
      .ok { b := b, pg := NewPtrGuard bufAddr, cBuffer := bufAddr,
            cDataLen := b.length, cWriteLen := writeLen,
            cOffset := offset }) := by
  constructor
  · intro hb
    subst hb
    rfl
  · intro hb
    cases b with
    | nil => exact absurd rfl hb
    | cons x xs => rfl

/-- Witness for C9 at the empty slice and at the one-byte slice `[7]`. -/
theorem c9_newWriteStep_spec_witness :
    newWriteStep 0 [] 1 2 = .error "index out of range" ∧
    newWriteStep 4 [7] 1 2 =
      .ok { b := [7], pg := NewPtrGuard 4, cBuffer := 4, cDataLen := 1,
            cWriteLen := 1, cOffset := 2 } :=
  ⟨(c9_newWriteStep_spec 0 [] 1 2).1 rfl,
   (c9_newWriteStep_spec 4 [7] 1 2).2 (by decide)⟩

/-- C10: `GetCreateTimestamp` returns the zero `Timespec` with a non-nil
error whenever the open-state validation fails or the C call returns a
negative code; the error is non-nil exactly when one of those two branches
is taken; on success it returns the converted timestamp and a nil error. -/
theorem c10_getCreateTimestamp_spec (image : Image) (ret : Int)
    (cts : CTimespec) :
    ((image.GetCreateTimestamp ret cts).2 ≠ none ↔
      (image.validate ≠ none ∨ ret < 0)) ∧
    (image.validate ≠ none ∨ ret < 0 →
      (image.GetCreateTimestamp ret cts).1 = ⟨0, 0⟩) ∧
    (image.validate = none → 0 ≤ ret →
      image.GetCreateTimestamp ret cts = (cStructToTimespec cts, none)) := by
  rcases himg : image.image with _ | handle
  · refine ⟨?_, ?_, ?_⟩
    · simp [Image.GetCreateTimestamp, Image.validate, himg]
    · intro _
      simp [Image.GetCreateTimestamp, Image.validate, himg]
    · intro hv
      simp [Image.validate, himg] at hv
  · by_cases hret : ret < 0
    · refine ⟨?_, ?_, ?_⟩
      · simp [Image.GetCreateTimestamp, Image.validate, himg, hret]
      · intro _
        simp [Image.GetCreateTimestamp, Image.validate, himg, hret]
      · intro _ hge
        exact absurd hret (not_lt.mpr hge)
    · refine ⟨?_, ?_, ?_⟩
      · simp [Image.GetCreateTimestamp, Image.validate, himg, hret]
      · intro hor
        rcases hor with hv | hlt
        · simp [Image.validate, himg] at hv
        · exact absurd hlt hret
      · intro _ _
        simp [Image.GetCreateTimestamp, Image.validate, himg, hret]

/-- Witness for C10: a closed image with a negative code yields the zero
timestamp and a non-nil error; an open image with code 0 yields the
converted timestamp and a nil error. -/
theorem c10_getCreateTimestamp_spec_witness :
    (Image.GetCreateTimestamp ⟨none⟩ (-2) ⟨1, 2⟩).1 = ⟨0, 0⟩ ∧
    Image.GetCreateTimestamp ⟨some 5⟩ 0 ⟨1, 2⟩ =
      (cStructToTimespec ⟨1, 2⟩, none) :=
  ⟨(c10_getCreateTimestamp_spec ⟨none⟩ (-2) ⟨1, 2⟩).2.1 (Or.inl (by decide)),
   (c10_getCreateTimestamp_spec ⟨some 5⟩ 0 ⟨1, 2⟩).2.2 rfl (by decide)⟩
